import Mathlib

/-!
# CAAM job-ring ownership (hal_jr.c) and software hash pseudo-driver (hash_sw.c)

A shallow embedding of

* `core/drivers/caam/hal/imx_8m/hal_jr.c`: `jrcfg_backup`, `hal_jr_setowner`,
  `hal_jr_prepare_backup`;
* `core/lib/libimxcrypt/crypto_sw/tomcrypt/hashes/hash_sw.c`: `get_sw_hashindex`,
  `do_allocate`, `do_init`, `do_update`, `do_final`.

Registers are 32-bit words in a memory indexed by address; every `write32` is also
appended to a write log so that the number and the order of the writes can be stated.
Constants and macros that come from headers outside the examined sources
(`ctrl_regs.h`, `jr_regs.h`, `hal_jr.h`, `caam_pwr.h`, LibTomCrypt) are parameters.
-/

namespace CaamHal

/-! ## Machine integers -/

/-- Value kept by a `uint32_t` variable. -/
def u32 (x : Nat) : Nat := x % 2 ^ 32

/-- Value kept by a `uint8_t` variable. -/
def u8 (x : Nat) : Nat := x % 2 ^ 8

/-- The C expression `a & ~b` on non-negative integers: the bits of `a` that are not in `b`. -/
def and_not (a b : Nat) : Nat := a ^^^ (a &&& b)

/-! ## Status codes -/

/-- Status codes returned by the job-ring HAL (the two that `hal_jr_setowner` uses). -/
inductive CAAM_Status where
  | CAAM_NO_ERROR
  | CAAM_FAILURE
  deriving DecidableEq

/-! ## Register layout and build configuration -/

/-- Constants and macros that `hal_jr.c` takes from `ctrl_regs.h`, `jr_regs.h` and
`hal_jr.h`, and the build flag `CFG_IMXCRYPT`. None of the headers is among the examined
sources, so each one is a parameter. `vaddr_bits` is the width of `vaddr_t`. -/
structure JrRegs where
  vaddr_bits : Nat
  JROWNER_SECURE : Nat
  JRx_IDX : Nat → Nat
  JR0DID_MS : Nat
  JR0DID_LS : Nat
  JRxDID_SIZE : Nat
  JRxDID_MS : Nat → Nat
  JRxDID_LS : Nat → Nat
  JRxDID_MS_LDID : Nat
  JRxDID_MS_LAMTD : Nat
  JRxDID_MS_AMTD : Nat
  JRxDID_MS_TZ_OWN : Nat
  JRxDID_MS_PRIM_TZ : Nat
  JRxDID_MS_PRIM_DID : Nat → Nat
  JRxDID_MS_PRIM_ICID : Nat → Nat
  CFG_IMXCRYPT : Bool

/-- Every constant and macro value of the layout fits a `uint32_t`, as values built with
`BIT32` and `SHIFT_U32` do. -/
def JrRegs.u32_valued (L : JrRegs) : Prop :=
  L.JRxDID_MS_LDID < 2 ^ 32 ∧ L.JRxDID_MS_LAMTD < 2 ^ 32 ∧ L.JRxDID_MS_AMTD < 2 ^ 32 ∧
  L.JRxDID_MS_TZ_OWN < 2 ^ 32 ∧ L.JRxDID_MS_PRIM_TZ < 2 ^ 32 ∧
  (∀ v, L.JRxDID_MS_PRIM_DID v < 2 ^ 32) ∧ (∀ v, L.JRxDID_MS_PRIM_ICID v < 2 ^ 32)

/-- Address arithmetic on `vaddr_t`. -/
def vaddr (L : JrRegs) (a : Nat) : Nat := a % 2 ^ L.vaddr_bits

/-! ## Register access -/

/-- Register file: the word stored at each address, and the log of the writes performed,
oldest first, each as (address, value). -/
structure IoState where
  mem : Nat → Nat
  writes : List (Nat × Nat)

/-- Memory-mapped 32-bit read (`read32(addr)`). -/
def read32 (s : IoState) (addr : Nat) : Nat := u32 (s.mem addr)

/-- Memory-mapped 32-bit write (`write32(val, addr)`): storage that returns the last value
written. -/
def write32 (val addr : Nat) (s : IoState) : IoState :=
  { mem := fun a => if a = addr then u32 val else s.mem a,
    writes := s.writes ++ [(addr, u32 val)] }

/-! ## hal_jr.c -/

/-- Job-ring index, `uint8_t jr_idx = JRx_IDX(jr_offset)`. -/
def jr_index (L : JrRegs) (jr_offset : Nat) : Nat := u8 (L.JRx_IDX jr_offset)

/-- Address `ctrl_base + JRxDID_MS(jr_idx)` of the queue's MS ownership register. -/
def ms_addr (L : JrRegs) (ctrl_base jr_offset : Nat) : Nat :=
  vaddr L (ctrl_base + L.JRxDID_MS (jr_index L jr_offset))

/-- Address `ctrl_base + JRxDID_LS(jr_idx)` of the queue's LS ownership register. -/
def ls_addr (L : JrRegs) (ctrl_base jr_offset : Nat) : Nat :=
  vaddr L (ctrl_base + L.JRxDID_LS (jr_index L jr_offset))

/-- Lines 68-82 of `hal_jr_setowner`: the `uint32_t cfg_ms` prepared for an owner. Each
assignment to `cfg_ms` keeps 32 bits. -/
def jr_cfg_ms (L : JrRegs) (owner : Nat) : Nat :=
  if owner &&& L.JROWNER_SECURE ≠ 0 then
    let cfg_ms := u32 (L.JRxDID_MS_PRIM_DID (and_not owner L.JROWNER_SECURE))
    let cfg_ms := u32 (cfg_ms ||| (L.JRxDID_MS_PRIM_TZ ||| L.JRxDID_MS_TZ_OWN))
    let cfg_ms := u32 (cfg_ms ||| L.JRxDID_MS_AMTD)
    let cfg_ms := u32 (cfg_ms ||| L.JRxDID_MS_PRIM_ICID (and_not owner L.JROWNER_SECURE))
    if L.CFG_IMXCRYPT then
      let cfg_ms := u32 (cfg_ms ||| L.JRxDID_MS_LDID)
      u32 (cfg_ms ||| L.JRxDID_MS_LAMTD)
    else
      cfg_ms
  else
    let cfg_ms := u32 (L.JRxDID_MS_PRIM_DID owner)
    u32 (cfg_ms ||| L.JRxDID_MS_PRIM_ICID owner)

/-- The function `hal_jr_setowner(ctrl_base, jr_offset, owner)`: returns the status and the
register file after the call. -/
def hal_jr_setowner (L : JrRegs) (s : IoState) (ctrl_base jr_offset owner : Nat) :
    CAAM_Status × IoState :=
  let cfg_ls : Nat := 0
  let val := read32 s (ms_addr L ctrl_base jr_offset)
  let cfg_ms := jr_cfg_ms L owner
  if val &&& L.JRxDID_MS_LDID ≠ 0 then
    if (cfg_ms ||| L.JRxDID_MS_LDID) = val then
      let val := read32 s (ls_addr L ctrl_base jr_offset)
      if val = cfg_ls then
        (CAAM_Status.CAAM_NO_ERROR, s)
      else
        (CAAM_Status.CAAM_FAILURE, s)
    else
      (CAAM_Status.CAAM_FAILURE, s)
  else
    let s := write32 cfg_ls (ls_addr L ctrl_base jr_offset) s
    let s := write32 cfg_ms (ms_addr L ctrl_base jr_offset) s
    (CAAM_Status.CAAM_NO_ERROR, s)

/-- One element of a `struct reglist` array as `jrcfg_backup` initialises it: the register
offset followed by the three further members, in declaration order. -/
structure reglist where
  offset : Nat
  field1 : Nat
  field2 : Nat
  field3 : Nat
  deriving DecidableEq

/-- The array `jrcfg_backup`: list of JR configuration registers to save and restore. -/
def jrcfg_backup (L : JrRegs) : List reglist :=
  [ ⟨L.JR0DID_MS, 1, 0, 0⟩,
    ⟨L.JR0DID_LS, 1, 0, 0⟩ ]

/-- Power backup catalogue: the registered regions in registration order, each a base
address with its register list. -/
abbrev PwrCatalogue := List (Nat × List reglist)

/-- Modelled from the spec: `caam_pwr_add_backup` (caam_pwr.c is not among the examined
sources) appends the caller-described region, `nbentries` elements of `regs` at base
`baseaddr`, to the process-wide catalogue; entries are never removed. -/
def caam_pwr_add_backup (cat : PwrCatalogue) (baseaddr : Nat) (regs : List reglist)
    (nbentries : Nat) : PwrCatalogue :=
  cat ++ [(baseaddr, regs.take nbentries)]

/-- Modelled from the spec: the restore walk (caam_pwr.c is not among the examined
sources) replays the catalogue in registration order, and the registers of one region in
the order of its list; this is the resulting sequence of register addresses written, one
per list element (each element of `jrcfg_backup` describes a single register). -/
def restore_order (cat : PwrCatalogue) : List Nat :=
  cat.flatMap fun e => e.2.map fun r => e.1 + r.offset

/-- The function `hal_jr_prepare_backup(ctrl_base, jr_offset)`, acting on the catalogue. -/
def hal_jr_prepare_backup (L : JrRegs) (cat : PwrCatalogue) (ctrl_base jr_offset : Nat) :
    PwrCatalogue :=
  let jr_idx := jr_index L jr_offset
  caam_pwr_add_backup cat (vaddr L (ctrl_base + jr_idx * L.JRxDID_SIZE)) (jrcfg_backup L)
    (jrcfg_backup L).length

/-! ## A sample register layout -/

/-- The macro `SHIFT_U32(v, shift)`. -/
def SHIFT_U32 (v shift : Nat) : Nat := u32 (v <<< shift)

/-- The macro `BIT32(nr)`. -/
def BIT32 (nr : Nat) : Nat := u32 (1 <<< nr)

/-- A sample layout with the field positions of the i.MX 8M JRaDID_MS register (LDID bit 31,
PRIM_ICID bits 19-28, LAMTD bit 17, AMTD bit 16, TZ_OWN bit 15, PRIM_TZ bit 4, PRIM_DID bits
0-3), job-ring blocks of 0x1000 bytes, 64-bit addresses and `CFG_IMXCRYPT` enabled. It
instantiates the parameters at concrete inputs. -/
def imx8m : JrRegs where
  vaddr_bits := 64
  JROWNER_SECURE := 0x10
  JRx_IDX := fun offset => (offset - 0x1000) / 0x1000
  JR0DID_MS := 0x10
  JR0DID_LS := 0x14
  JRxDID_SIZE := 0x8
  JRxDID_MS := fun idx => 0x10 + idx * 0x8
  JRxDID_LS := fun idx => 0x14 + idx * 0x8
  JRxDID_MS_LDID := BIT32 31
  JRxDID_MS_LAMTD := BIT32 17
  JRxDID_MS_AMTD := BIT32 16
  JRxDID_MS_TZ_OWN := BIT32 15
  JRxDID_MS_PRIM_TZ := BIT32 4
  JRxDID_MS_PRIM_DID := fun v => SHIFT_U32 (v &&& 0xF) 0
  JRxDID_MS_PRIM_ICID := fun v => SHIFT_U32 (v &&& 0x3FF) 19
  CFG_IMXCRYPT := true

/-- The sample layout built without `CFG_IMXCRYPT`. -/
def imx8m_plain : JrRegs := { imx8m with CFG_IMXCRYPT := false }

/-- A register file in reset state: every register reads 0, nothing written yet. -/
def io_reset : IoState := { mem := fun _ => 0, writes := [] }

/-- A register file in which the MS ownership register of job ring 0 of the controller at
0x30900000 (address 0x30900010) holds 0x800B8011, lock bit set, and every other register
reads 0. -/
def io_locked : IoState :=
  { mem := fun a => if a = 0x30900010 then 0x800B8011 else 0, writes := [] }

end CaamHal

namespace HashSw

/-! ## Result codes -/

/-- The type `TEE_Result`, a 32-bit code. -/
abbrev TEE_Result := Nat

/-- GlobalPlatform code `TEE_SUCCESS`. -/
def TEE_SUCCESS : TEE_Result := 0x00000000

/-- GlobalPlatform code `TEE_ERROR_NOT_IMPLEMENTED`. -/
def TEE_ERROR_NOT_IMPLEMENTED : TEE_Result := 0xFFFF0009

/-- GlobalPlatform code `TEE_ERROR_OUT_OF_MEMORY`. -/
def TEE_ERROR_OUT_OF_MEMORY : TEE_Result := 0xFFFF000C

/-! ## Algorithm identifiers, provider and allocator -/

/-- Values of `enum imxcrypt_hash_id` as `get_sw_hashindex` distinguishes them: its six case
labels, and any other value (which reaches `default`). -/
inductive imxcrypt_hash_id where
  | HASH_MD5
  | HASH_SHA1
  | HASH_SHA224
  | HASH_SHA256
  | HASH_SHA384
  | HASH_SHA512
  | other (v : Nat)
  deriving DecidableEq

/-- One element of LibTomCrypt's `hash_descriptor` table, over the state type `σ` of
`hash_state`. Each primitive returns its `int` code and the state it leaves; `done` also
returns the content it leaves in the output buffer it was given. -/
structure ltc_hash_descriptor (σ : Type) where
  hashsize : Nat
  init : σ → Int × σ
  process : σ → List Nat → Nat → Int × σ
  done : σ → List Nat → Int × σ × List Nat

/-- Calls that hash_sw.c makes to the allocator and to the primitives of the provider. -/
inductive Call where
  | calloc (nmemb size : Nat)
  | malloc (size : Nat)
  | free
  | hash_init (idx : Int)
  | hash_process (idx : Int)
  | hash_done (idx : Int)
  deriving DecidableEq

/-- What hash_sw.c consumes from outside: the `CFG_CRYPTO_HASH_HW_*` build flags,
LibTomCrypt (`find_hash`, `hash_descriptor`, `CRYPT_OK`, `sizeof(hash_state)`),
`conv_CRYPT_to_TEE_Result` of local.h, and the allocator. The allocator answers from the
calls made so far: `calloc` gives the address of a zero-filled object or `none` for NULL,
`malloc` gives the (indeterminate) content of the new block or `none` for NULL. -/
structure HashEnv (σ : Type) where
  CFG_CRYPTO_HASH_HW_MD5 : Bool
  CFG_CRYPTO_HASH_HW_SHA1 : Bool
  CFG_CRYPTO_HASH_HW_SHA224 : Bool
  CFG_CRYPTO_HASH_HW_SHA256 : Bool
  CFG_CRYPTO_HASH_HW_SHA384 : Bool
  CFG_CRYPTO_HASH_HW_SHA512 : Bool
  find_hash : String → Int
  hash_descriptor : Int → ltc_hash_descriptor σ
  CRYPT_OK : Int
  conv_CRYPT_to_TEE_Result : Int → TEE_Result
  sizeof_hash_state : Nat
  zero_state : σ
  calloc : List Call → Nat → Nat → Option Nat
  malloc : List Call → Nat → Option (List Nat)

/-- What the caller of the pseudo-driver can observe: its context pointer variable, the
`hash_state` this pointer designates, the memory at its digest pointer, and the calls made
so far to the allocator and the provider. -/
structure World (σ : Type) where
  ctx_ptr : Nat
  ctx : σ
  digest : List Nat
  calls : List Call

/-- The call `memcpy(dst, src, n)`: the first `n` bytes of `dst` become those of `src`. -/
def memcpy (dst src : List Nat) (n : Nat) : List Nat := src.take n ++ dst.drop n

/-! ## hash_sw.c -/

/-- The function `get_sw_hashindex(algo)`. -/
def get_sw_hashindex {σ : Type} (E : HashEnv σ) (algo : imxcrypt_hash_id) : Int :=
  match algo with
  | .HASH_MD5 => if E.CFG_CRYPTO_HASH_HW_MD5 then -1 else E.find_hash "md5"
  | .HASH_SHA1 => if E.CFG_CRYPTO_HASH_HW_SHA1 then -1 else E.find_hash "sha1"
  | .HASH_SHA224 => if E.CFG_CRYPTO_HASH_HW_SHA224 then -1 else E.find_hash "sha224"
  | .HASH_SHA256 => if E.CFG_CRYPTO_HASH_HW_SHA256 then -1 else E.find_hash "sha256"
  | .HASH_SHA384 => if E.CFG_CRYPTO_HASH_HW_SHA384 then -1 else E.find_hash "sha384"
  | .HASH_SHA512 => if E.CFG_CRYPTO_HASH_HW_SHA512 then -1 else E.find_hash "sha512"
  | .other _ => -1

/-- The function `do_allocate(ctx, algo)`. -/
def do_allocate {σ : Type} (E : HashEnv σ) (w : World σ) (algo : imxcrypt_hash_id) :
    TEE_Result × World σ :=
  if get_sw_hashindex E algo = -1 then
    (TEE_ERROR_NOT_IMPLEMENTED, w)
  else
    match E.calloc w.calls 1 E.sizeof_hash_state with
    | none =>
      (TEE_ERROR_OUT_OF_MEMORY,
        { w with calls := w.calls ++ [Call.calloc 1 E.sizeof_hash_state] })
    | some hash_ctx =>
      (TEE_SUCCESS,
        { w with ctx_ptr := hash_ctx, ctx := E.zero_state,
                 calls := w.calls ++ [Call.calloc 1 E.sizeof_hash_state] })

/-- The function `do_init(ctx, algo)`. -/
def do_init {σ : Type} (E : HashEnv σ) (w : World σ) (algo : imxcrypt_hash_id) :
    TEE_Result × World σ :=
  let hash_idx := get_sw_hashindex E algo
  if hash_idx = -1 then
    (TEE_ERROR_NOT_IMPLEMENTED, w)
  else
    let r := (E.hash_descriptor hash_idx).init w.ctx
    (E.conv_CRYPT_to_TEE_Result r.1,
      { w with ctx := r.2, calls := w.calls ++ [Call.hash_init hash_idx] })

/-- The function `do_update(ctx, algo, data, len)`. -/
def do_update {σ : Type} (E : HashEnv σ) (w : World σ) (algo : imxcrypt_hash_id)
    (data : List Nat) (len : Nat) : TEE_Result × World σ :=
  let hash_idx := get_sw_hashindex E algo
  if hash_idx = -1 then
    (TEE_ERROR_NOT_IMPLEMENTED, w)
  else
    let r := (E.hash_descriptor hash_idx).process w.ctx data len
    (E.conv_CRYPT_to_TEE_Result r.1,
      { w with ctx := r.2, calls := w.calls ++ [Call.hash_process hash_idx] })

/-- The function `do_final(ctx, algo, digest, len)`. -/
def do_final {σ : Type} (E : HashEnv σ) (w : World σ) (algo : imxcrypt_hash_id)
    (len : Nat) : TEE_Result × World σ :=
  let hash_idx := get_sw_hashindex E algo
  if hash_idx = -1 then
    (TEE_ERROR_NOT_IMPLEMENTED, w)
  else
    let hashsize := (E.hash_descriptor hash_idx).hashsize
    if hashsize > len then
      match E.malloc w.calls hashsize with
      | none =>
        (TEE_ERROR_OUT_OF_MEMORY, { w with calls := w.calls ++ [Call.malloc hashsize] })
      | some block_digest =>
        let r := (E.hash_descriptor hash_idx).done w.ctx block_digest
        let digest := if r.1 = E.CRYPT_OK then memcpy w.digest r.2.2 len else w.digest
        (E.conv_CRYPT_to_TEE_Result r.1,
          { w with ctx := r.2.1, digest := digest,
                   calls := w.calls ++
                     [Call.malloc hashsize, Call.hash_done hash_idx, Call.free] })
    else
      let r := (E.hash_descriptor hash_idx).done w.ctx w.digest
      (E.conv_CRYPT_to_TEE_Result r.1,
        { w with ctx := r.2.1, digest := r.2.2,
                 calls := w.calls ++ [Call.hash_done hash_idx] })

/-! ## A sample environment -/

/-- SHA-256 digest of the empty message (the test vector e3b0c442 98fc1c14 ...). -/
def sha256_empty : List Nat :=
  [0xe3, 0xb0, 0xc4, 0x42, 0x98, 0xfc, 0x1c, 0x14, 0x9a, 0xfb, 0xf4, 0xc8, 0x99, 0x6f, 0xb9,
   0x24, 0x27, 0xae, 0x41, 0xe4, 0x64, 0x9b, 0x93, 0x4c, 0xa4, 0x95, 0x99, 0x1b, 0x78, 0x52,
   0xb8, 0x55]

/-- A stand-in descriptor for SHA-256 whose state is the message absorbed so far. Its `done`
step is tabulated for the empty message only, where it leaves the 32 bytes of
`sha256_empty` in the output buffer and returns 0; on any other state it returns the error
code 1 and leaves the buffer alone. -/
def sample_sha256 : ltc_hash_descriptor (List Nat) where
  hashsize := 32
  init := fun _ => (0, [])
  process := fun st data len => (0, st ++ data.take len)
  done := fun st out => if st = [] then (0, st, memcpy out sha256_empty 32) else (1, st, out)

/-- A sample environment: MD5 is served by hardware (excluded from the software driver), the
library registers SHA-256 alone, at index 0; `malloc_ok` chooses whether `malloc` succeeds
(with a block filled with 0xAA) or returns NULL. -/
def sample_env (malloc_ok : Bool) : HashEnv (List Nat) where
  CFG_CRYPTO_HASH_HW_MD5 := true
  CFG_CRYPTO_HASH_HW_SHA1 := false
  CFG_CRYPTO_HASH_HW_SHA224 := false
  CFG_CRYPTO_HASH_HW_SHA256 := false
  CFG_CRYPTO_HASH_HW_SHA384 := false
  CFG_CRYPTO_HASH_HW_SHA512 := false
  find_hash := fun name => if name = "sha256" then 0 else -1
  hash_descriptor := fun _ => sample_sha256
  CRYPT_OK := 0
  conv_CRYPT_to_TEE_Result := fun ret => if ret = 0 then TEE_SUCCESS else 0xFFFF0000
  sizeof_hash_state := 416
  zero_state := []
  calloc := fun calls _ _ => some (0x1000 + calls.length)
  malloc := fun _ size => if malloc_ok then some (List.replicate size 0xAA) else none

/-- A caller with a NULL context variable, an empty context, a 16-byte digest buffer filled
with 0x55 followed by four bytes 0x77 that belong to something else, and no call made. -/
def sample_world : World (List Nat) where
  ctx_ptr := 0
  ctx := []
  digest := List.replicate 16 0x55 ++ List.replicate 4 0x77
  calls := []

end HashSw

/-! # Properties of hal_jr.c -/

namespace CaamHal

open CAAM_Status

/-! ## Machine-integer and register-access lemmas -/

theorem u32_lt (x : Nat) : u32 x < 2 ^ 32 := Nat.mod_lt _ (by decide)

theorem u32_of_lt {x : Nat} (h : x < 2 ^ 32) : u32 x = x := Nat.mod_eq_of_lt h

theorem u32_u32 (x : Nat) : u32 (u32 x) = u32 x := u32_of_lt (u32_lt x)

theorem u32_or (a b : Nat) : u32 (a ||| b) = u32 a ||| u32 b := by
  apply Nat.eq_of_testBit_eq
  intro i
  simp only [u32, Nat.testBit_mod_two_pow, Nat.testBit_or]
  cases decide (i < 32) <;> simp

/-- A value that meets a one-bit mask already contains it. -/
theorem or_bit_of_and_ne_zero {v k : Nat} (h : v &&& 2 ^ k ≠ 0) : v ||| 2 ^ k = v := by
  have hk : v.testBit k = true := by
    by_contra hc
    apply h
    apply Nat.eq_of_testBit_eq
    intro i
    simp only [Nat.testBit_and, Nat.testBit_two_pow, Nat.zero_testBit]
    by_cases hik : k = i
    · subst hik; simp [hc]
    · simp [hik]
  apply Nat.eq_of_testBit_eq
  intro i
  simp only [Nat.testBit_or, Nat.testBit_two_pow]
  by_cases hik : k = i
  · subst hik; simp [hk]
  · simp [hik]

theorem jr_cfg_ms_lt (L : JrRegs) (owner : Nat) : jr_cfg_ms L owner < 2 ^ 32 := by
  unfold jr_cfg_ms
  split
  · split <;> exact u32_lt _
  · exact u32_lt _

theorem read32_write32_same (val addr : Nat) (s : IoState) :
    read32 (write32 val addr s) addr = u32 val := by
  simp [read32, write32, u32_u32]

theorem read32_write32_other (val addr a : Nat) (s : IoState) (h : a ≠ addr) :
    read32 (write32 val addr s) a = read32 s a := by
  simp [read32, write32, h]

theorem imx8m_u32_valued : imx8m.u32_valued :=
  ⟨u32_lt _, u32_lt _, u32_lt _, u32_lt _, u32_lt _, fun _ => u32_lt _, fun _ => u32_lt _⟩

/-! ## The two branches of hal_jr_setowner -/

/-- Lock bit clear: the else branch, two writes and success. -/
theorem hal_jr_setowner_of_unlocked (L : JrRegs) (s : IoState) (cb jo owner : Nat)
    (h : read32 s (ms_addr L cb jo) &&& L.JRxDID_MS_LDID = 0) :
    hal_jr_setowner L s cb jo owner =
      (CAAM_NO_ERROR,
        write32 (jr_cfg_ms L owner) (ms_addr L cb jo) (write32 0 (ls_addr L cb jo) s)) := by
  simp [hal_jr_setowner, h]

/-- Lock bit set: the register file is returned as it was, and the status is decided by the
two comparisons. -/
theorem hal_jr_setowner_of_locked (L : JrRegs) (s : IoState) (cb jo owner : Nat)
    (h : read32 s (ms_addr L cb jo) &&& L.JRxDID_MS_LDID ≠ 0) :
    hal_jr_setowner L s cb jo owner =
      (if read32 s (ms_addr L cb jo) = (jr_cfg_ms L owner ||| L.JRxDID_MS_LDID) ∧
          read32 s (ls_addr L cb jo) = 0 then CAAM_NO_ERROR else CAAM_FAILURE, s) := by
  unfold hal_jr_setowner
  simp only [h, ne_eq, not_false_eq_true, if_true]
  by_cases h1 : (jr_cfg_ms L owner ||| L.JRxDID_MS_LDID) = read32 s (ms_addr L cb jo)
  · by_cases h2 : read32 s (ls_addr L cb jo) = 0
    · rw [if_pos h1, if_pos h2, if_pos ⟨h1.symm, h2⟩]
    · rw [if_pos h1, if_neg h2, if_neg (fun hc => h2 hc.2)]
  · rw [if_neg h1, if_neg (fun hc => h1 hc.1.symm)]

/-- After a call on an unlocked queue the MS register reads the value computed for the
owner. -/
theorem read32_ms_after_unlocked (L : JrRegs) (s : IoState) (cb jo owner : Nat) :
    read32 (write32 (jr_cfg_ms L owner) (ms_addr L cb jo) (write32 0 (ls_addr L cb jo) s))
      (ms_addr L cb jo) = jr_cfg_ms L owner := by
  rw [read32_write32_same, u32_of_lt (jr_cfg_ms_lt L owner)]

/-- When the value written for the first owner carries no lock bit, the queue stays unlocked:
a second call, for any owner, takes the writing branch again and succeeds. -/
theorem hal_jr_setowner_after_unlocked_value (L : JrRegs) (s : IoState)
    (cb jo O1 O2 : Nat)
    (h : read32 s (ms_addr L cb jo) &&& L.JRxDID_MS_LDID = 0)
    (hval : jr_cfg_ms L O1 &&& L.JRxDID_MS_LDID = 0) :
    (hal_jr_setowner L (hal_jr_setowner L s cb jo O1).2 cb jo O2).1 = CAAM_NO_ERROR ∧
    read32 (hal_jr_setowner L (hal_jr_setowner L s cb jo O1).2 cb jo O2).2 (ms_addr L cb jo)
      = jr_cfg_ms L O2 := by
  rw [hal_jr_setowner_of_unlocked L s cb jo O1 h]
  rw [hal_jr_setowner_of_unlocked L _ cb jo O2 (by rw [read32_ms_after_unlocked]; exact hval)]
  exact ⟨rfl, read32_ms_after_unlocked L _ cb jo O2⟩

/-! ## Claims on hal_jr_setowner -/

/-- C1: for every controller base, queue offset and owner, when the MS ownership register of
the queue is read with its lock bit `JRxDID_MS_LDID` clear, `hal_jr_setowner` performs
exactly two register writes, first the value 0 to the LS register and then `cfg_ms` to the
MS register, and returns `CAAM_NO_ERROR`. -/
theorem hal_jr_setowner_unlocked_two_writes (L : JrRegs) (s : IoState)
    (ctrl_base jr_offset owner : Nat)
    (h : read32 s (ms_addr L ctrl_base jr_offset) &&& L.JRxDID_MS_LDID = 0) :
    (hal_jr_setowner L s ctrl_base jr_offset owner).1 = CAAM_NO_ERROR ∧
    (hal_jr_setowner L s ctrl_base jr_offset owner).2.writes =
      s.writes ++ [(ls_addr L ctrl_base jr_offset, 0),
                   (ms_addr L ctrl_base jr_offset, jr_cfg_ms L owner)] := by
  rw [hal_jr_setowner_of_unlocked L s ctrl_base jr_offset owner h]
  refine ⟨rfl, ?_⟩
  show (s.writes ++ [(ls_addr L ctrl_base jr_offset, u32 0)]) ++
      [(ms_addr L ctrl_base jr_offset, u32 (jr_cfg_ms L owner))] = _
  rw [u32_of_lt (jr_cfg_ms_lt L owner), List.append_assoc]
  rfl

/-- Witness of C1: the secure owner 0x11 on job ring 0 of a controller in reset state. -/
theorem hal_jr_setowner_unlocked_two_writes_witness :
    read32 io_reset (ms_addr imx8m 0x30900000 0x1000) &&& imx8m.JRxDID_MS_LDID = 0 ∧
    (hal_jr_setowner imx8m io_reset 0x30900000 0x1000 0x11).1 = CAAM_NO_ERROR ∧
    (hal_jr_setowner imx8m io_reset 0x30900000 0x1000 0x11).2.writes =
      io_reset.writes ++ [(ls_addr imx8m 0x30900000 0x1000, 0),
                          (ms_addr imx8m 0x30900000 0x1000, jr_cfg_ms imx8m 0x11)] :=
  ⟨by decide,
    hal_jr_setowner_unlocked_two_writes imx8m io_reset 0x30900000 0x1000 0x11 (by decide)⟩

/-- C2: for every owner and every register state in which the MS ownership register has its
lock bit set, `hal_jr_setowner` returns `CAAM_NO_ERROR` if and only if the MS register equals
the configuration value computed for the owner with the lock bit or-ed in and the LS register
equals 0; in every other locked case it returns `CAAM_FAILURE`. -/
theorem hal_jr_setowner_locked_status (L : JrRegs) (s : IoState)
    (ctrl_base jr_offset owner : Nat)
    (h : read32 s (ms_addr L ctrl_base jr_offset) &&& L.JRxDID_MS_LDID ≠ 0) :
    ((hal_jr_setowner L s ctrl_base jr_offset owner).1 = CAAM_NO_ERROR ↔
      (read32 s (ms_addr L ctrl_base jr_offset) = (jr_cfg_ms L owner ||| L.JRxDID_MS_LDID) ∧
        read32 s (ls_addr L ctrl_base jr_offset) = 0)) ∧
    (¬ (read32 s (ms_addr L ctrl_base jr_offset) = (jr_cfg_ms L owner ||| L.JRxDID_MS_LDID) ∧
        read32 s (ls_addr L ctrl_base jr_offset) = 0) →
      (hal_jr_setowner L s ctrl_base jr_offset owner).1 = CAAM_FAILURE) := by
  rw [hal_jr_setowner_of_locked L s ctrl_base jr_offset owner h]
  by_cases hc : read32 s (ms_addr L ctrl_base jr_offset) =
      (jr_cfg_ms L owner ||| L.JRxDID_MS_LDID) ∧ read32 s (ls_addr L ctrl_base jr_offset) = 0
  · rw [if_pos hc]
    exact ⟨Iff.intro (fun _ => hc) (fun _ => rfl), fun hn => absurd hc hn⟩
  · rw [if_neg hc]
    exact ⟨Iff.intro (fun hx => by cases hx) (fun hx => absurd hx hc), fun _ => rfl⟩

/-- Witness of C2: a locked queue asked for the owner 0x12, which it does not hold. -/
theorem hal_jr_setowner_locked_status_witness :
    read32 io_locked (ms_addr imx8m 0x30900000 0x1000) &&& imx8m.JRxDID_MS_LDID ≠ 0 ∧
    ((hal_jr_setowner imx8m io_locked 0x30900000 0x1000 0x12).1 = CAAM_NO_ERROR ↔
      (read32 io_locked (ms_addr imx8m 0x30900000 0x1000) =
          (jr_cfg_ms imx8m 0x12 ||| imx8m.JRxDID_MS_LDID) ∧
        read32 io_locked (ls_addr imx8m 0x30900000 0x1000) = 0)) ∧
    (hal_jr_setowner imx8m io_locked 0x30900000 0x1000 0x12).1 = CAAM_FAILURE :=
  ⟨by decide,
    (hal_jr_setowner_locked_status imx8m io_locked 0x30900000 0x1000 0x12 (by decide)).1,
    (hal_jr_setowner_locked_status imx8m io_locked 0x30900000 0x1000 0x12 (by decide)).2
      (by decide)⟩

/-- C10: for every owner and every register state in which the MS ownership register is read
with its lock bit set, `hal_jr_setowner` performs no register write, whatever status it
returns: the register file, contents and write log, is the same after the call as before. -/
theorem hal_jr_setowner_locked_no_write (L : JrRegs) (s : IoState)
    (ctrl_base jr_offset owner : Nat)
    (h : read32 s (ms_addr L ctrl_base jr_offset) &&& L.JRxDID_MS_LDID ≠ 0) :
    (hal_jr_setowner L s ctrl_base jr_offset owner).2 = s := by
  rw [hal_jr_setowner_of_locked L s ctrl_base jr_offset owner h]

/-- Witness of C10: a locked queue asked for the owner it holds and for another one. -/
theorem hal_jr_setowner_locked_no_write_witness :
    read32 io_locked (ms_addr imx8m 0x30900000 0x1000) &&& imx8m.JRxDID_MS_LDID ≠ 0 ∧
    (hal_jr_setowner imx8m io_locked 0x30900000 0x1000 0x11).1 = CAAM_NO_ERROR ∧
    (hal_jr_setowner imx8m io_locked 0x30900000 0x1000 0x11).2 = io_locked ∧
    (hal_jr_setowner imx8m io_locked 0x30900000 0x1000 0x12).1 = CAAM_FAILURE ∧
    (hal_jr_setowner imx8m io_locked 0x30900000 0x1000 0x12).2 = io_locked :=
  ⟨by decide, by decide,
    hal_jr_setowner_locked_no_write imx8m io_locked 0x30900000 0x1000 0x11 (by decide),
    by decide,
    hal_jr_setowner_locked_no_write imx8m io_locked 0x30900000 0x1000 0x12 (by decide)⟩

/-- Counterexample to C3 as stated. With `CFG_IMXCRYPT` configured, the non-secure owners 1
and 2 differ, the first call on the reset queue succeeds, and the second call succeeds too
and replaces the MS content 0x80001 by 0x100002: the value written for a non-secure owner
carries no lock bit. Without `CFG_IMXCRYPT` the same happens for the secure owners 0x11 and
0x12. And on a queue that owner 0x11 did lock, the different owner 0x411 is accepted, because
the two have the same computed MS value. -/
theorem hal_jr_setowner_second_owner_accepted :
    (1 : Nat) ≠ 2 ∧
    read32 io_reset (ms_addr imx8m 0x30900000 0x1000) &&& imx8m.JRxDID_MS_LDID = 0 ∧
    (hal_jr_setowner imx8m io_reset 0x30900000 0x1000 1).1 = CAAM_NO_ERROR ∧
    (hal_jr_setowner imx8m (hal_jr_setowner imx8m io_reset 0x30900000 0x1000 1).2
      0x30900000 0x1000 2).1 = CAAM_NO_ERROR ∧
    read32 (hal_jr_setowner imx8m io_reset 0x30900000 0x1000 1).2
      (ms_addr imx8m 0x30900000 0x1000) = 0x80001 ∧
    read32 (hal_jr_setowner imx8m (hal_jr_setowner imx8m io_reset 0x30900000 0x1000 1).2
      0x30900000 0x1000 2).2 (ms_addr imx8m 0x30900000 0x1000) = 0x100002 ∧
    (hal_jr_setowner imx8m_plain io_reset 0x30900000 0x1000 0x11).1 = CAAM_NO_ERROR ∧
    (hal_jr_setowner imx8m_plain
      (hal_jr_setowner imx8m_plain io_reset 0x30900000 0x1000 0x11).2
      0x30900000 0x1000 0x12).1 = CAAM_NO_ERROR ∧
    (0x11 : Nat) ≠ 0x411 ∧
    read32 (hal_jr_setowner imx8m io_reset 0x30900000 0x1000 0x11).2
      (ms_addr imx8m 0x30900000 0x1000) &&& imx8m.JRxDID_MS_LDID ≠ 0 ∧
    (hal_jr_setowner imx8m (hal_jr_setowner imx8m io_reset 0x30900000 0x1000 0x11).2
      0x30900000 0x1000 0x411).1 = CAAM_NO_ERROR := by
  decide

/-- C3, amended: let the MS value computed for owner O1 carry the lock bit `JRxDID_MS_LDID`
(the code sets it only for a secure owner under `CFG_IMXCRYPT`), and let the MS value
computed for owner O2, with the lock bit or-ed in, differ from it. After
`hal_jr_setowner(ctrl_base, jr_offset, O1)` on an unlocked queue, which succeeds, the call
`hal_jr_setowner(ctrl_base, jr_offset, O2)` returns `CAAM_FAILURE` and leaves the register
file, the MS and LS ownership registers included, as the first call left it. -/
theorem hal_jr_setowner_locked_rejects_other (L : JrRegs) (s : IoState)
    (ctrl_base jr_offset O1 O2 : Nat)
    (h : read32 s (ms_addr L ctrl_base jr_offset) &&& L.JRxDID_MS_LDID = 0)
    (hlock : jr_cfg_ms L O1 &&& L.JRxDID_MS_LDID ≠ 0)
    (hdiff : (jr_cfg_ms L O2 ||| L.JRxDID_MS_LDID) ≠ jr_cfg_ms L O1) :
    (hal_jr_setowner L s ctrl_base jr_offset O1).1 = CAAM_NO_ERROR ∧
    (hal_jr_setowner L (hal_jr_setowner L s ctrl_base jr_offset O1).2
        ctrl_base jr_offset O2).1 = CAAM_FAILURE ∧
    (hal_jr_setowner L (hal_jr_setowner L s ctrl_base jr_offset O1).2
        ctrl_base jr_offset O2).2 = (hal_jr_setowner L s ctrl_base jr_offset O1).2 := by
  rw [hal_jr_setowner_of_unlocked L s ctrl_base jr_offset O1 h]
  have hms := read32_ms_after_unlocked L s ctrl_base jr_offset O1
  have hl : read32 (write32 (jr_cfg_ms L O1) (ms_addr L ctrl_base jr_offset)
      (write32 0 (ls_addr L ctrl_base jr_offset) s)) (ms_addr L ctrl_base jr_offset)
      &&& L.JRxDID_MS_LDID ≠ 0 := by rw [hms]; exact hlock
  refine ⟨rfl, ?_, ?_⟩
  · rw [hal_jr_setowner_of_locked L _ ctrl_base jr_offset O2 hl, hms]
    have hno : ¬ (jr_cfg_ms L O1 = (jr_cfg_ms L O2 ||| L.JRxDID_MS_LDID) ∧
        read32 (write32 (jr_cfg_ms L O1) (ms_addr L ctrl_base jr_offset)
          (write32 0 (ls_addr L ctrl_base jr_offset) s)) (ls_addr L ctrl_base jr_offset) = 0) :=
      fun hc => hdiff hc.1.symm
    rw [if_neg hno]
  · rw [hal_jr_setowner_of_locked L _ ctrl_base jr_offset O2 hl]

/-- Witness of C3 amended: the secure owners 0x11 then 0x12 under `CFG_IMXCRYPT`. -/
theorem hal_jr_setowner_locked_rejects_other_witness :
    read32 io_reset (ms_addr imx8m 0x30900000 0x1000) &&& imx8m.JRxDID_MS_LDID = 0 ∧
    jr_cfg_ms imx8m 0x11 &&& imx8m.JRxDID_MS_LDID ≠ 0 ∧
    (jr_cfg_ms imx8m 0x12 ||| imx8m.JRxDID_MS_LDID) ≠ jr_cfg_ms imx8m 0x11 ∧
    (hal_jr_setowner imx8m io_reset 0x30900000 0x1000 0x11).1 = CAAM_NO_ERROR ∧
    (hal_jr_setowner imx8m (hal_jr_setowner imx8m io_reset 0x30900000 0x1000 0x11).2
        0x30900000 0x1000 0x12).1 = CAAM_FAILURE ∧
    (hal_jr_setowner imx8m (hal_jr_setowner imx8m io_reset 0x30900000 0x1000 0x11).2
        0x30900000 0x1000 0x12).2 =
      (hal_jr_setowner imx8m io_reset 0x30900000 0x1000 0x11).2 :=
  ⟨by decide, by decide, by decide,
    hal_jr_setowner_locked_rejects_other imx8m io_reset 0x30900000 0x1000 0x11 0x12
      (by decide) (by decide) (by decide)⟩

/-- C4: for every owner and every queue whose MS register initially has the lock bit clear,
calling `hal_jr_setowner` twice in a row with the same base, offset and owner returns
`CAAM_NO_ERROR` both times, and the register contents after the second call are those after
the first call. It holds with and without `CFG_IMXCRYPT`, for secure and non-secure owners.
The layout is any one whose lock mask is a single bit and whose MS and LS registers are two
registers. -/
theorem hal_jr_setowner_twice_same_owner (L : JrRegs) (s : IoState)
    (ctrl_base jr_offset owner : Nat)
    (hbit : ∃ k, L.JRxDID_MS_LDID = 2 ^ k)
    (hne : ms_addr L ctrl_base jr_offset ≠ ls_addr L ctrl_base jr_offset)
    (h : read32 s (ms_addr L ctrl_base jr_offset) &&& L.JRxDID_MS_LDID = 0) :
    (hal_jr_setowner L s ctrl_base jr_offset owner).1 = CAAM_NO_ERROR ∧
    (hal_jr_setowner L (hal_jr_setowner L s ctrl_base jr_offset owner).2
        ctrl_base jr_offset owner).1 = CAAM_NO_ERROR ∧
    (hal_jr_setowner L (hal_jr_setowner L s ctrl_base jr_offset owner).2
        ctrl_base jr_offset owner).2.mem =
      (hal_jr_setowner L s ctrl_base jr_offset owner).2.mem := by
  rw [hal_jr_setowner_of_unlocked L s ctrl_base jr_offset owner h]
  have hms := read32_ms_after_unlocked L s ctrl_base jr_offset owner
  have hls : read32 (write32 (jr_cfg_ms L owner) (ms_addr L ctrl_base jr_offset)
      (write32 0 (ls_addr L ctrl_base jr_offset) s)) (ls_addr L ctrl_base jr_offset) = 0 := by
    rw [read32_write32_other _ _ _ _ (Ne.symm hne), read32_write32_same]; rfl
  refine ⟨rfl, ?_⟩
  by_cases hl : jr_cfg_ms L owner &&& L.JRxDID_MS_LDID = 0
  · rw [hal_jr_setowner_of_unlocked L _ ctrl_base jr_offset owner (by rw [hms]; exact hl)]
    refine ⟨rfl, ?_⟩
    funext a
    simp only [write32]
    by_cases h1 : a = ms_addr L ctrl_base jr_offset
    · simp [h1]
    · by_cases h2 : a = ls_addr L ctrl_base jr_offset <;> simp [h1, h2]
  · rw [hal_jr_setowner_of_locked L _ ctrl_base jr_offset owner (by rw [hms]; exact hl)]
    obtain ⟨k, hk⟩ := hbit
    rw [hk] at hl
    have := or_bit_of_and_ne_zero hl
    rw [hms, hls, hk, if_pos ⟨this.symm, rfl⟩]
    exact ⟨rfl, rfl⟩

/-- Witness of C4: the secure owner 0x11 under `CFG_IMXCRYPT`, on a queue in reset state. -/
theorem hal_jr_setowner_twice_same_owner_witness :
    (∃ k, imx8m.JRxDID_MS_LDID = 2 ^ k) ∧
    ms_addr imx8m 0x30900000 0x1000 ≠ ls_addr imx8m 0x30900000 0x1000 ∧
    read32 io_reset (ms_addr imx8m 0x30900000 0x1000) &&& imx8m.JRxDID_MS_LDID = 0 ∧
    (hal_jr_setowner imx8m io_reset 0x30900000 0x1000 0x11).1 = CAAM_NO_ERROR ∧
    (hal_jr_setowner imx8m (hal_jr_setowner imx8m io_reset 0x30900000 0x1000 0x11).2
        0x30900000 0x1000 0x11).1 = CAAM_NO_ERROR ∧
    (hal_jr_setowner imx8m (hal_jr_setowner imx8m io_reset 0x30900000 0x1000 0x11).2
        0x30900000 0x1000 0x11).2.mem =
      (hal_jr_setowner imx8m io_reset 0x30900000 0x1000 0x11).2.mem :=
  ⟨⟨31, by decide⟩, by decide, by decide,
    hal_jr_setowner_twice_same_owner imx8m io_reset 0x30900000 0x1000 0x11
      ⟨31, by decide⟩ (by decide) (by decide)⟩

/-- C5: the MS configuration value computed by `hal_jr_setowner`. For an owner with
`JROWNER_SECURE` set, with o the owner with that flag cleared, it is
PRIM_DID(o) | PRIM_ICID(o) | PRIM_TZ | TZ_OWN | AMTD, or-ed with LDID | LAMTD exactly when
`CFG_IMXCRYPT` is configured. For an owner without `JROWNER_SECURE` it is exactly
PRIM_DID(owner) | PRIM_ICID(owner). The macro values are 32-bit values. -/
theorem jr_cfg_ms_encoding (L : JrRegs) (owner : Nat) (hw : L.u32_valued) :
    (owner &&& L.JROWNER_SECURE ≠ 0 →
      jr_cfg_ms L owner =
        if L.CFG_IMXCRYPT then
          L.JRxDID_MS_PRIM_DID (and_not owner L.JROWNER_SECURE) |||
            L.JRxDID_MS_PRIM_ICID (and_not owner L.JROWNER_SECURE) |||
            L.JRxDID_MS_PRIM_TZ ||| L.JRxDID_MS_TZ_OWN ||| L.JRxDID_MS_AMTD |||
            (L.JRxDID_MS_LDID ||| L.JRxDID_MS_LAMTD)
        else
          L.JRxDID_MS_PRIM_DID (and_not owner L.JROWNER_SECURE) |||
            L.JRxDID_MS_PRIM_ICID (and_not owner L.JROWNER_SECURE) |||
            L.JRxDID_MS_PRIM_TZ ||| L.JRxDID_MS_TZ_OWN ||| L.JRxDID_MS_AMTD) ∧
    (owner &&& L.JROWNER_SECURE = 0 →
      jr_cfg_ms L owner = L.JRxDID_MS_PRIM_DID owner ||| L.JRxDID_MS_PRIM_ICID owner) := by
  obtain ⟨h1, h2, h3, h4, h5, h6, h7⟩ := hw
  constructor
  · intro hs
    unfold jr_cfg_ms
    rw [if_pos hs]
    simp only [u32_or, u32_u32, u32_of_lt h1, u32_of_lt h2, u32_of_lt h3, u32_of_lt h4,
      u32_of_lt h5, u32_of_lt (h6 _), u32_of_lt (h7 _)]
    cases L.CFG_IMXCRYPT
    · simp only [Bool.false_eq_true, if_false]
      apply Nat.eq_of_testBit_eq
      intro i
      simp only [Nat.testBit_or]
      cases Nat.testBit _ i <;> cases Nat.testBit _ i <;> cases Nat.testBit _ i <;>
        cases Nat.testBit _ i <;> cases Nat.testBit _ i <;> rfl
    · simp only [if_true]
      apply Nat.eq_of_testBit_eq
      intro i
      simp only [Nat.testBit_or]
      cases Nat.testBit _ i <;> cases Nat.testBit _ i <;> cases Nat.testBit _ i <;>
        cases Nat.testBit _ i <;> cases Nat.testBit _ i <;> cases Nat.testBit _ i <;>
        cases Nat.testBit _ i <;> rfl
  · intro hs
    unfold jr_cfg_ms
    rw [if_neg (by simpa using hs)]
    simp only [u32_or, u32_u32, u32_of_lt (h6 _), u32_of_lt (h7 _)]

/-- Witness of C5: the secure owner 0x11 (o = 0x1) under `CFG_IMXCRYPT` gives 0x800B8011, and
the non-secure owner 0x1 gives 0x80001. -/
theorem jr_cfg_ms_encoding_witness :
    imx8m.u32_valued ∧ (0x11 &&& imx8m.JROWNER_SECURE ≠ 0) ∧
    (0x1 &&& imx8m.JROWNER_SECURE = 0) ∧
    jr_cfg_ms imx8m 0x11 =
      (if imx8m.CFG_IMXCRYPT then
        imx8m.JRxDID_MS_PRIM_DID (and_not 0x11 imx8m.JROWNER_SECURE) |||
          imx8m.JRxDID_MS_PRIM_ICID (and_not 0x11 imx8m.JROWNER_SECURE) |||
          imx8m.JRxDID_MS_PRIM_TZ ||| imx8m.JRxDID_MS_TZ_OWN ||| imx8m.JRxDID_MS_AMTD |||
          (imx8m.JRxDID_MS_LDID ||| imx8m.JRxDID_MS_LAMTD)
      else
        imx8m.JRxDID_MS_PRIM_DID (and_not 0x11 imx8m.JROWNER_SECURE) |||
          imx8m.JRxDID_MS_PRIM_ICID (and_not 0x11 imx8m.JROWNER_SECURE) |||
          imx8m.JRxDID_MS_PRIM_TZ ||| imx8m.JRxDID_MS_TZ_OWN ||| imx8m.JRxDID_MS_AMTD) ∧
    jr_cfg_ms imx8m 0x1 = imx8m.JRxDID_MS_PRIM_DID 0x1 ||| imx8m.JRxDID_MS_PRIM_ICID 0x1 ∧
    jr_cfg_ms imx8m 0x11 = 0x800B8011 ∧ jr_cfg_ms imx8m 0x1 = 0x80001 :=
  ⟨imx8m_u32_valued, by decide, by decide,
    (jr_cfg_ms_encoding imx8m 0x11 imx8m_u32_valued).1 (by decide),
    (jr_cfg_ms_encoding imx8m 0x1 imx8m_u32_valued).2 (by decide),
    by decide, by decide⟩

/-! ## Claims on the backup list -/

/-- Counterexample to C6 as stated. In `jrcfg_backup` the offsets are JR0DID_MS then
JR0DID_LS: the LS entry does not precede the MS entry. A restore replaying the list that
`hal_jr_prepare_backup` registered for job ring 0 writes the MS register and then the LS
register, whereas `hal_jr_setowner` writes the LS register and then the MS register. -/
theorem jrcfg_backup_ls_not_first :
    (jrcfg_backup imx8m).map reglist.offset = [imx8m.JR0DID_MS, imx8m.JR0DID_LS] ∧
    ¬ (List.indexOf imx8m.JR0DID_LS ((jrcfg_backup imx8m).map reglist.offset) <
        List.indexOf imx8m.JR0DID_MS ((jrcfg_backup imx8m).map reglist.offset)) ∧
    restore_order (hal_jr_prepare_backup imx8m [] 0x30900000 0x1000) =
      [ms_addr imx8m 0x30900000 0x1000, ls_addr imx8m 0x30900000 0x1000] ∧
    (hal_jr_setowner imx8m io_reset 0x30900000 0x1000 0x11).2.writes.map Prod.fst =
      [ls_addr imx8m 0x30900000 0x1000, ms_addr imx8m 0x30900000 0x1000] := by
  decide

/-- C6, amended: `hal_jr_prepare_backup` appends to the power backup catalogue one region, at
base ctrl_base + jr_idx * JRxDID_SIZE, whose list is `jrcfg_backup`: the entry of the MS
ownership register (JR0DID_MS, 1, 0, 0) first and the entry of the LS ownership register
(JR0DID_LS, 1, 0, 0) second. A restore replaying the catalogue in order therefore writes,
for this region, the MS register before the LS register. -/
theorem hal_jr_prepare_backup_order (L : JrRegs) (cat : PwrCatalogue)
    (ctrl_base jr_offset : Nat) :
    hal_jr_prepare_backup L cat ctrl_base jr_offset =
      cat ++ [(vaddr L (ctrl_base + jr_index L jr_offset * L.JRxDID_SIZE),
                [⟨L.JR0DID_MS, 1, 0, 0⟩, ⟨L.JR0DID_LS, 1, 0, 0⟩])] ∧
    restore_order (hal_jr_prepare_backup L cat ctrl_base jr_offset) =
      restore_order cat ++
        [vaddr L (ctrl_base + jr_index L jr_offset * L.JRxDID_SIZE) + L.JR0DID_MS,
         vaddr L (ctrl_base + jr_index L jr_offset * L.JRxDID_SIZE) + L.JR0DID_LS] := by
  constructor
  · rfl
  · simp [hal_jr_prepare_backup, caam_pwr_add_backup, restore_order, jrcfg_backup]

end CaamHal

/-! # Properties of hash_sw.c -/

namespace HashSw

open imxcrypt_hash_id

/-- When the software index lookup gives -1: the identifier is none of the six digests, or
its `CFG_CRYPTO_HASH_HW_*` flag excludes it, or `find_hash` answers -1 for its name. -/
theorem get_sw_hashindex_eq_neg_one_iff {σ : Type} (E : HashEnv σ) (algo : imxcrypt_hash_id) :
    get_sw_hashindex E algo = -1 ↔
      match algo with
      | .HASH_MD5 => E.CFG_CRYPTO_HASH_HW_MD5 = true ∨ E.find_hash "md5" = -1
      | .HASH_SHA1 => E.CFG_CRYPTO_HASH_HW_SHA1 = true ∨ E.find_hash "sha1" = -1
      | .HASH_SHA224 => E.CFG_CRYPTO_HASH_HW_SHA224 = true ∨ E.find_hash "sha224" = -1
      | .HASH_SHA256 => E.CFG_CRYPTO_HASH_HW_SHA256 = true ∨ E.find_hash "sha256" = -1
      | .HASH_SHA384 => E.CFG_CRYPTO_HASH_HW_SHA384 = true ∨ E.find_hash "sha384" = -1
      | .HASH_SHA512 => E.CFG_CRYPTO_HASH_HW_SHA512 = true ∨ E.find_hash "sha512" = -1
      | .other _ => True := by
  cases algo
  case other v => simp [get_sw_hashindex]
  all_goals
    simp only [get_sw_hashindex]
    split <;> simp_all

/-- C7: for every algorithm identifier for which `get_sw_hashindex` yields -1, each of
`do_allocate`, `do_init`, `do_update` and `do_final` returns `TEE_ERROR_NOT_IMPLEMENTED` and
leaves everything as it was: no allocation call, no call of a provider primitive, and the
context pointer, the context state and the digest buffer of the caller unmodified. -/
theorem not_implemented_no_effect {σ : Type} (E : HashEnv σ) (w : World σ)
    (algo : imxcrypt_hash_id) (h : get_sw_hashindex E algo = -1) :
    do_allocate E w algo = (TEE_ERROR_NOT_IMPLEMENTED, w) ∧
    do_init E w algo = (TEE_ERROR_NOT_IMPLEMENTED, w) ∧
    (∀ data len, do_update E w algo data len = (TEE_ERROR_NOT_IMPLEMENTED, w)) ∧
    (∀ len, do_final E w algo len = (TEE_ERROR_NOT_IMPLEMENTED, w)) := by
  refine ⟨?_, ?_, ?_, ?_⟩
  · simp [do_allocate, h]
  · simp [do_init, h]
  · intro data len; simp [do_update, h]
  · intro len; simp [do_final, h]

/-- Witness of C7: MD5 excluded at build time by `CFG_CRYPTO_HASH_HW_MD5`. -/
theorem not_implemented_no_effect_witness :
    get_sw_hashindex (sample_env true) HASH_MD5 = -1 ∧
    do_allocate (sample_env true) sample_world HASH_MD5 =
      (TEE_ERROR_NOT_IMPLEMENTED, sample_world) ∧
    do_init (sample_env true) sample_world HASH_MD5 =
      (TEE_ERROR_NOT_IMPLEMENTED, sample_world) ∧
    (∀ data len, do_update (sample_env true) sample_world HASH_MD5 data len =
      (TEE_ERROR_NOT_IMPLEMENTED, sample_world)) ∧
    (∀ len, do_final (sample_env true) sample_world HASH_MD5 len =
      (TEE_ERROR_NOT_IMPLEMENTED, sample_world)) :=
  ⟨by decide, not_implemented_no_effect (sample_env true) sample_world HASH_MD5 (by decide)⟩

/-- C8: for every resolved algorithm with native digest size h, every context and every
caller buffer length len < h: if the temporary buffer is obtained and the done step of the
provider succeeds leaving the full digest D in it, then `do_final` returns the converted
success status, the first len bytes of the caller buffer equal the first len bytes of D, and
no byte of the caller memory from position len on is written. -/
theorem do_final_truncates {σ : Type} (E : HashEnv σ) (w : World σ)
    (algo : imxcrypt_hash_id) (len : Nat) (block : List Nat) (ctx' : σ) (D : List Nat)
    (hres : get_sw_hashindex E algo ≠ -1)
    (hlen : len < (E.hash_descriptor (get_sw_hashindex E algo)).hashsize)
    (hmalloc : E.malloc w.calls (E.hash_descriptor (get_sw_hashindex E algo)).hashsize
      = some block)
    (hdone : (E.hash_descriptor (get_sw_hashindex E algo)).done w.ctx block
      = (E.CRYPT_OK, ctx', D))
    (hD : D.length = (E.hash_descriptor (get_sw_hashindex E algo)).hashsize) :
    (do_final E w algo len).1 = E.conv_CRYPT_to_TEE_Result E.CRYPT_OK ∧
    (do_final E w algo len).2.digest.take len = D.take len ∧
    (do_final E w algo len).2.digest.drop len = w.digest.drop len := by
  have hlenD : len ≤ D.length := by omega
  have e : do_final E w algo len =
      (E.conv_CRYPT_to_TEE_Result E.CRYPT_OK,
        { w with ctx := ctx', digest := memcpy w.digest D len,
                 calls := w.calls ++
                   [Call.malloc (E.hash_descriptor (get_sw_hashindex E algo)).hashsize,
                    Call.hash_done (get_sw_hashindex E algo), Call.free] }) := by
    unfold do_final
    simp only [hres, if_false, gt_iff_lt, hlen, if_true, hmalloc, hdone]
  rw [e]
  have hl : (List.take len D).length = len := by simp [hlenD]
  refine ⟨rfl, ?_, ?_⟩
  · show (List.take len D ++ List.drop len w.digest).take len = _
    rw [List.take_append_of_le_length (by omega), List.take_take]; simp
  · show (List.take len D ++ List.drop len w.digest).drop len = _
    rw [List.drop_append_of_le_length (by omega)]
    have : List.drop len (List.take len D) = [] := by simp
    rw [this]; rfl

/-- Witness of C8: SHA-256 (h = 32) of the empty input into a buffer of len = 16 returns
success and leaves the first 16 bytes of e3b0c44298fc1c14..., with the four bytes that
follow the buffer untouched. -/
theorem do_final_truncates_witness :
    get_sw_hashindex (sample_env true) HASH_SHA256 ≠ -1 ∧
    16 < ((sample_env true).hash_descriptor
      (get_sw_hashindex (sample_env true) HASH_SHA256)).hashsize ∧
    (do_final (sample_env true) sample_world HASH_SHA256 16).1 = TEE_SUCCESS ∧
    (do_final (sample_env true) sample_world HASH_SHA256 16).2.digest.take 16 =
      [0xe3, 0xb0, 0xc4, 0x42, 0x98, 0xfc, 0x1c, 0x14,
       0x9a, 0xfb, 0xf4, 0xc8, 0x99, 0x6f, 0xb9, 0x24] ∧
    (do_final (sample_env true) sample_world HASH_SHA256 16).2.digest.drop 16 =
      [0x77, 0x77, 0x77, 0x77] :=
  ⟨by decide, by decide,
    do_final_truncates (sample_env true) sample_world HASH_SHA256 16
      (List.replicate 32 0xAA) [] sha256_empty
      (by decide) (by decide) (by decide) (by decide) (by decide)⟩

/-- C9: for every resolved algorithm, context and caller buffer length smaller than the
native digest size: if the temporary full-size buffer cannot be allocated, `do_final`
returns `TEE_ERROR_OUT_OF_MEMORY` after the one `malloc` call and without invoking the done
step of the provider, so the context state and the digest buffer of the caller are exactly
as before the call. -/
theorem do_final_out_of_memory {σ : Type} (E : HashEnv σ) (w : World σ)
    (algo : imxcrypt_hash_id) (len : Nat)
    (hres : get_sw_hashindex E algo ≠ -1)
    (hlen : len < (E.hash_descriptor (get_sw_hashindex E algo)).hashsize)
    (hmalloc : E.malloc w.calls (E.hash_descriptor (get_sw_hashindex E algo)).hashsize
      = none) :
    (do_final E w algo len).1 = TEE_ERROR_OUT_OF_MEMORY ∧
    (do_final E w algo len).2.calls =
      w.calls ++ [Call.malloc (E.hash_descriptor (get_sw_hashindex E algo)).hashsize] ∧
    (do_final E w algo len).2.ctx = w.ctx ∧
    (do_final E w algo len).2.digest = w.digest ∧
    (do_final E w algo len).2.ctx_ptr = w.ctx_ptr := by
  have e : do_final E w algo len =
      (TEE_ERROR_OUT_OF_MEMORY,
        { w with calls := w.calls ++
            [Call.malloc (E.hash_descriptor (get_sw_hashindex E algo)).hashsize] }) := by
    unfold do_final
    simp only [hres, if_false, gt_iff_lt, hlen, if_true, hmalloc]
  rw [e]
  exact ⟨rfl, rfl, rfl, rfl, rfl⟩

/-- Witness of C9: SHA-256 into a 16-byte buffer when `malloc` returns NULL. -/
theorem do_final_out_of_memory_witness :
    get_sw_hashindex (sample_env false) HASH_SHA256 ≠ -1 ∧
    (sample_env false).malloc sample_world.calls 32 = none ∧
    (do_final (sample_env false) sample_world HASH_SHA256 16).1 = TEE_ERROR_OUT_OF_MEMORY ∧
    (do_final (sample_env false) sample_world HASH_SHA256 16).2.calls =
      sample_world.calls ++ [Call.malloc ((sample_env false).hash_descriptor
        (get_sw_hashindex (sample_env false) HASH_SHA256)).hashsize] ∧
    (do_final (sample_env false) sample_world HASH_SHA256 16).2.ctx = sample_world.ctx ∧
    (do_final (sample_env false) sample_world HASH_SHA256 16).2.digest =
      sample_world.digest ∧
    (do_final (sample_env false) sample_world HASH_SHA256 16).2.ctx_ptr =
      sample_world.ctx_ptr :=
  ⟨by decide, by decide,
    do_final_out_of_memory (sample_env false) sample_world HASH_SHA256 16
      (by decide) (by decide) (by decide)⟩

end HashSw
